import Mathlib

/-!
Verification of the Arm Ethos-U rpmsg host driver (drivers/ethosu/ethosu_rpmsg).

Shallow embedding of the mailbox (correlation table, blocking sender),
the request/response state machines (version, capabilities, network info,
cancel inference, inference) and the network/inference creation paths.
Each definition is a direct transcription of the corresponding C function;
environment-dependent steps (transport results, user-memory copies,
allocation failures) are passed in explicitly.
-/

/-! ## Wire-protocol and driver constants (include/rpmsg/ethosu_rpmsg.h) -/

/-- Maximum number of IFM/OFM buffers per inference on the wire protocol. -/
def ETHOSU_RPMSG_BUFFER_MAX : Nat := 16

/-- Maximum number of PMU counters returned for an inference on the wire. -/
def ETHOSU_RPMSG_PMU_MAX : Nat := 8

/-- Magic constant of every rpmsg packet header. -/
def ETHOSU_RPMSG_MAGIC : Nat := 0x41457631

/-- Expected protocol version, major part. -/
def ETHOSU_RPMSG_VERSION_MAJOR : Nat := 0

/-- Expected protocol version, minor part. -/
def ETHOSU_RPMSG_VERSION_MINOR : Nat := 2

/-- Message type codes from enum ethosu_rpmsg_type. -/
def ETHOSU_RPMSG_INFERENCE_REQ : Nat := 4

def ETHOSU_RPMSG_VERSION_REQ : Nat := 6

def ETHOSU_RPMSG_CAPABILITIES_REQ : Nat := 8

def ETHOSU_RPMSG_NETWORK_INFO_REQ : Nat := 10

def ETHOSU_RPMSG_CANCEL_INFERENCE_REQ : Nat := 12

/-- Response status codes from enum ethosu_rpmsg_status. -/
def ETHOSU_RPMSG_STATUS_OK : Nat := 0

def ETHOSU_RPMSG_STATUS_ERROR : Nat := 1

def ETHOSU_RPMSG_STATUS_REJECTED : Nat := 3

def ETHOSU_RPMSG_STATUS_ABORTED : Nat := 4

/-- Modelled from the spec: ETHOSU_FD_MAX comes from uapi/ethosu.h, which is
not part of the sources at hand; the spec fixes FD_MAX = 16. -/
def ETHOSU_FD_MAX : Nat := 16

/-- Modelled from the spec: ETHOSU_PMU_EVENT_MAX comes from uapi/ethosu.h,
which is not part of the sources at hand; the spec fixes the number of PMU
event slots of an inference to P = 4. -/
def ETHOSU_PMU_EVENT_MAX : Nat := 4

/-! ## Linux errno values used by the driver -/

def ENOENT : Int := 2

def EINTR : Int := 4

def EIO_err : Int := 5

def EBADF : Int := 9

def ENOMEM : Int := 12

def EFAULT : Int := 14

def ENODEV : Int := 19

def EINVAL : Int := 22

def ENFILE : Int := 23

def ENOSPC : Int := 28

def ETIME : Int := 62

def EPROTO : Int := 71

def EMSGSIZE : Int := 90

def E2BIG : Int := 7

/-- Range limit of idr_alloc_cyclic in ethosu_rpmsg_mailbox_register. -/
def INT_MAX : Nat := 2 ^ 31 - 1

/-! ## User-visible inference status (enum ethosu_uapi_status)

Modelled from the spec: the enum lives in uapi/ethosu.h, which is not in
the sources at hand; the spec gives the six states and their codes
0=OK, 1=ERROR, 2=RUNNING, 3=REJECTED, 4=ABORTED, 5=ABORTING. -/

inductive UapiStatus where
  | ok
  | error
  | running
  | rejected
  | aborted
  | aborting
deriving DecidableEq, Repr

/-! ## Mailbox correlation table (part ethosu_rpmsg_mailbox.c)

The idr keyed by correlation id is embedded as an association list from id
to the registered message; `tag` stands for the identity of the owning
request object (the pointer in C). -/

structure MboxMsg where
  type : Nat
  tag : Nat
deriving DecidableEq, Repr

/-- Outstanding-request table: correlation id to registered message. -/
abbrev IdTable := List (Nat × MboxMsg)

/-- idr_find: look a message up by id; does not modify the table. -/
def idr_find (tbl : IdTable) (msg_id : Nat) : Option MboxMsg :=
  (tbl.find? (fun p => p.1 = msg_id)).map Prod.snd

/-- First id not in use, scanning upward from `start` but staying below
`stop`; `fuel` bounds the scan (tbl.length + 1 suffices by pigeonhole). -/
def firstFreeFrom (tbl : IdTable) (start fuel stop : Nat) : Option Nat :=
  match fuel with
  | 0 => none
  | fuel + 1 =>
    if start ≥ stop then none
    else if (idr_find tbl start).isSome then firstFreeFrom tbl (start + 1) fuel stop
    else some start

/-- idr_alloc_cyclic(&idr, msg, 0, INT_MAX): allocate the next unused id at
or after the cyclic hint, wrapping around to 0 when the upper range is
exhausted. -/
def idr_alloc_cyclic (tbl : IdTable) (next : Nat) : Option Nat :=
  match firstFreeFrom tbl next (tbl.length + 1) INT_MAX with
  | some id => some id
  | none => firstFreeFrom tbl 0 (tbl.length + 1) next

/-- Mailbox state: the outstanding table, the idr cyclic hint, the atomic
`done` shutdown flag and the send wait queue (task identities in FIFO
order, head woken first). -/
structure Mailbox where
  table : IdTable
  nextId : Nat
  done : Bool
  sendQueue : List Nat
deriving DecidableEq, Repr

/-- Result of ethosu_rpmsg_mailbox_register: return value, the id written
into msg->id, and the mailbox afterwards. -/
structure RegisterResult where
  ret : Int
  id : Nat
  mbox : Mailbox
deriving DecidableEq, Repr

/-- ethosu_rpmsg_mailbox_register: msg->id = idr_alloc_cyclic(...); the
function returns msg->id when negative, else 0.  Note that it never reads
the `done` shutdown flag. -/
def ethosu_rpmsg_mailbox_register (m : Mailbox) (msg : MboxMsg) : RegisterResult :=
  match idr_alloc_cyclic m.table m.nextId with
  | none => ⟨-ENOSPC, 0, m⟩
  | some id => ⟨0, id, { m with table := (id, msg) :: m.table, nextId := id + 1 }⟩

/-- ethosu_rpmsg_mailbox_deregister: idr_remove(&mbox->msg_idr, msg->id). -/
def ethosu_rpmsg_mailbox_deregister (m : Mailbox) (msg_id : Nat) : Mailbox :=
  { m with table := m.table.filter (fun p => p.1 ≠ msg_id) }

/-- ethosu_rpmsg_mailbox_find: idr_find followed by the mandatory kind
check.  NULL maps to -ENOENT, a type mismatch to -EINVAL.  The table is
returned alongside the result: idr_find performs no mutation, so it is the
input table unchanged. -/
def ethosu_rpmsg_mailbox_find (tbl : IdTable) (msg_id : Nat) (msg_type : Nat) :
    Except Int MboxMsg × IdTable :=
  match idr_find tbl msg_id with
  | none => (.error (-ENOENT), tbl)
  | some ptr =>
    if ptr.type ≠ msg_type then (.error (-EINVAL), tbl) else (.ok ptr, tbl)

/-- ethosu_rpmsg_mailbox_deinit: atomic_set(&mbox->done, 1) and
wake_up_all(&mbox->send_queue). -/
def ethosu_rpmsg_mailbox_deinit (m : Mailbox) : Mailbox :=
  { m with done := true, sendQueue := [] }

/-! ## Blocking serialized sender (ethosu_send_locked)

The loop body observes the environment once per iteration: the shutdown
flag at the loop head, the rpmsg_trysend result if an attempt is made, the
jiffies consumed by wait_woken and whether a signal is pending afterwards.
A trace of such observations drives the loop. -/

/-- Overall bound of the send wait (MAILBOX_SEND_TIMEOUT_MS). -/
def MAILBOX_SEND_TIMEOUT_MS : Nat := 15000

/-- One loop iteration's environment observations. -/
structure SendIter where
  done : Bool
  trySendRet : Int
  waitElapsed : Nat
  signal : Bool
deriving DecidableEq, Repr

/-- The for(;;) loop of ethosu_send_locked.  `trySend` is the flag of the
same name; `timeout` the remaining jiffies (wait_woken returns the
remaining budget, floored at zero, embodied by truncated subtraction).
`none` means the trace ended before the loop exited. -/
def ethosu_send_loop : List SendIter → Bool → Nat → Option Int
  | [], _, _ => none
  | it :: rest, trySend, timeout =>
    if it.done then some (-ENODEV)
    else if trySend = true ∧ it.trySendRet ≠ -ENOMEM then some it.trySendRet
    else
      let timeout' := timeout - it.waitElapsed
      if it.signal then some (-EINTR)
      else if timeout' = 0 then some (-ETIME)
      else ethosu_send_loop rest true timeout'

/-- ethosu_send_locked: the initial try_send flag is
!wq_has_sleeper(&mbox->send_queue), the timeout budget 15 s. -/
def ethosu_send_locked (hasSleeper : Bool) (iters : List SendIter) : Option Int :=
  ethosu_send_loop iters (!hasSleeper) MAILBOX_SEND_TIMEOUT_MS

/-- The tail of ethosu_send_locked: if the message was sent successfully
(ret == 0) and tasks still sleep on the send queue, wake_up wakes exactly
one exclusive waiter (FIFO head).  Returns the queue afterwards and the
number of tasks woken. -/
def ethosu_send_wake (ret : Int) (queue : List Nat) : List Nat × Nat :=
  if ret = 0 ∧ queue ≠ [] then (queue.tail, 1) else (queue, 0)

/-! ## Inference response handling (part ethosu_rpmsg_inference.c) -/

/-- The effect of a C array-copy loop `for (i = 0; i < n; i++) dst[i] = src[i];`
on a flat store indexed by Nat. -/
def copyIdx (dst src : Nat → Nat) (n : Nat) : Nat → Nat :=
  (List.range n).foldl (fun acc i => fun j => if j = i then src i else acc j) dst

/-- struct ethosu_rpmsg_inference_rsp (wire payload). -/
structure InfRspWire where
  ofm_count : Nat
  ofm_size : Nat → Nat
  status : Nat
  pmu_event_config : Nat → Nat
  pmu_event_count : Nat → Nat
  pmu_cycle_counter_enable : Nat
  pmu_cycle_counter_count : Nat

/-- The mutable fields of struct ethosu_rpmsg_inference that the response
handler touches.  The PMU arrays are flat stores indexed by Nat; their
valid slots are 0 .. ETHOSU_PMU_EVENT_MAX - 1. -/
structure InfState where
  done : Bool
  ofm_count : Nat
  status : UapiStatus
  pmu_event_config : Nat → Nat
  pmu_event_count : Nat → Nat
  pmu_cycle_counter_enable : Nat
  pmu_cycle_counter_count : Nat

/-- Result of ethosu_rpmsg_inference_rsp: the inference afterwards, whether
the wait queue was woken, and how many refcounts the handler dropped. -/
structure InfRspResult where
  inf : InfState
  woke : Bool
  puts : Nat

/-- ethosu_rpmsg_inference_rsp: kind-checked lookup, the ABORTING/ABORTED
latch, the status transition, the PMU copy on OK (a loop bounded by
ETHOSU_RPMSG_PMU_MAX), then done=true, wake_up_interruptible and one
ethosu_rpmsg_inference_put. -/
def ethosu_rpmsg_inference_rsp (tbl : IdTable) (msg_id : Nat) (inf : InfState)
    (rsp : InfRspWire) : InfRspResult :=
  match (ethosu_rpmsg_mailbox_find tbl msg_id ETHOSU_RPMSG_INFERENCE_REQ).1 with
  | .error _ => ⟨inf, false, 0⟩
  | .ok _ =>
    let inf1 :=
      if inf.status = .aborted ∨ inf.status = .aborting then
        { inf with status := .aborted }
      else
        let inf2 :=
          if rsp.status = ETHOSU_RPMSG_STATUS_OK ∧ inf.ofm_count ≤ ETHOSU_RPMSG_BUFFER_MAX then
            { inf with status := .ok }
          else if rsp.status = ETHOSU_RPMSG_STATUS_REJECTED then
            { inf with status := .rejected }
          else if rsp.status = ETHOSU_RPMSG_STATUS_ABORTED then
            { inf with status := .aborted }
          else
            { inf with status := .error }
        if inf2.status = .ok then
          { inf2 with
            pmu_event_config := copyIdx inf2.pmu_event_config rsp.pmu_event_config ETHOSU_RPMSG_PMU_MAX,
            pmu_event_count := copyIdx inf2.pmu_event_count rsp.pmu_event_count ETHOSU_RPMSG_PMU_MAX,
            pmu_cycle_counter_enable := rsp.pmu_cycle_counter_enable,
            pmu_cycle_counter_count := rsp.pmu_cycle_counter_count }
        else inf2
    ⟨{ inf1 with done := true }, true, 1⟩

/-! ## Version check (part ethosu_rpmsg_version.c) -/

/-- An outgoing packet: the header fields and the payload length in bytes
(the C code sends sizeof(header) + payload). -/
structure WirePacket where
  magic : Nat
  type : Nat
  msg_id : Nat
  payloadLen : Nat
deriving DecidableEq, Repr

/-- ethosu_rpmsg_mailbox_version_request builds a packet and sends exactly
sizeof(rpmsg.header) bytes: the request carries no payload. -/
def ethosu_rpmsg_mailbox_version_request_packet (msg_id : Nat) : WirePacket :=
  ⟨ETHOSU_RPMSG_MAGIC, ETHOSU_RPMSG_VERSION_REQ, msg_id, 0⟩

/-- struct ethosu_rpmsg_version_rsp (wire payload). -/
structure VersionRspWire where
  major : Nat
  minor : Nat
  patch : Nat
deriving DecidableEq, Repr

/-- The mutable state of struct ethosu_rpmsg_version: the errno result and
the completion (completion_done ↔ completionDone = true). -/
structure VersionState where
  errno : Int
  completionDone : Bool
deriving DecidableEq, Repr

/-- ethosu_rpmsg_version_rsp: kind-checked lookup, the completion_done
guard, then errno := -EPROTO on a major/minor mismatch against the
compile-time expected version, else 0; finally complete(&done). -/
def ethosu_rpmsg_version_rsp (tbl : IdTable) (msg_id : Nat) (st : VersionState)
    (rsp : VersionRspWire) : VersionState :=
  match (ethosu_rpmsg_mailbox_find tbl msg_id ETHOSU_RPMSG_VERSION_REQ).1 with
  | .error _ => st
  | .ok _ =>
    if st.completionDone then st
    else
      { errno :=
          if rsp.major ≠ ETHOSU_RPMSG_VERSION_MAJOR ∨ rsp.minor ≠ ETHOSU_RPMSG_VERSION_MINOR then
            -EPROTO
          else 0,
        completionDone := true }

/-! ## Capabilities response (part ethosu_rpmsg_capabilities.c) -/

/-- struct ethosu_rpmsg_capabilities_rsp (wire payload, 13 u32 fields). -/
structure CapRspWire where
  version_status : Nat
  version_minor : Nat
  version_major : Nat
  product_major : Nat
  arch_patch_rev : Nat
  arch_minor_rev : Nat
  arch_major_rev : Nat
  driver_patch_rev : Nat
  driver_minor_rev : Nat
  driver_major_rev : Nat
  macs_per_cc : Nat
  cmd_stream_version : Nat
  custom_dma : Nat
deriving DecidableEq, Repr

/-- The user-visible capabilities struct the handler fills in. -/
structure CapUapi where
  version_status : Nat
  version_minor : Nat
  version_major : Nat
  product_major : Nat
  arch_patch_rev : Nat
  arch_minor_rev : Nat
  arch_major_rev : Nat
  driver_patch_rev : Nat
  driver_minor_rev : Nat
  driver_major_rev : Nat
  macs_per_cc : Nat
  cmd_stream_version : Nat
  custom_dma : Nat
deriving DecidableEq, Repr

/-- The mutable state of struct ethosu_rpmsg_capabilities. -/
structure CapState where
  errno : Int
  completionDone : Bool
  uapi : CapUapi
deriving DecidableEq, Repr

/-- ethosu_capability_rsp: kind-checked lookup, the completion_done guard,
field-by-field copy into the uapi struct, errno := 0, complete(&done). -/
def ethosu_capability_rsp (tbl : IdTable) (msg_id : Nat) (st : CapState)
    (rsp : CapRspWire) : CapState :=
  match (ethosu_rpmsg_mailbox_find tbl msg_id ETHOSU_RPMSG_CAPABILITIES_REQ).1 with
  | .error _ => st
  | .ok _ =>
    if st.completionDone then st
    else
      { errno := 0,
        completionDone := true,
        uapi :=
          ⟨rsp.version_status, rsp.version_minor, rsp.version_major,
           rsp.product_major, rsp.arch_patch_rev, rsp.arch_minor_rev,
           rsp.arch_major_rev, rsp.driver_patch_rev, rsp.driver_minor_rev,
           rsp.driver_major_rev, rsp.macs_per_cc, rsp.cmd_stream_version,
           rsp.custom_dma⟩ }

/-! ## Cancel-inference response (part ethosu_rpmsg_cancel_inference.c) -/

/-- struct ethosu_rpmsg_cancel_inference_rsp (wire payload). -/
structure CancelRspWire where
  status : Nat
deriving DecidableEq, Repr

/-- The mutable state of struct ethosu_rpmsg_cancel_inference: errno, the
completion, and the user status output uapi->status. -/
structure CancelState where
  errno : Int
  completionDone : Bool
  uapiStatus : UapiStatus
deriving DecidableEq, Repr

/-- ethosu_rpmsg_cancel_inference_rsp: kind-checked lookup, the
completion_done guard, errno := 0, the status switch (OK or ERROR, other
codes leave uapi->status untouched), then complete(&done). -/
def ethosu_rpmsg_cancel_inference_rsp (tbl : IdTable) (msg_id : Nat)
    (st : CancelState) (rsp : CancelRspWire) : CancelState :=
  match (ethosu_rpmsg_mailbox_find tbl msg_id ETHOSU_RPMSG_CANCEL_INFERENCE_REQ).1 with
  | .error _ => st
  | .ok _ =>
    if st.completionDone then st
    else
      let uapiStatus :=
        if rsp.status = ETHOSU_RPMSG_STATUS_OK then UapiStatus.ok
        else if rsp.status = ETHOSU_RPMSG_STATUS_ERROR then UapiStatus.error
        else st.uapiStatus
      { errno := 0, completionDone := true, uapiStatus := uapiStatus }

/-! ## Network-info response (ethosu_rpmsg_network_info.c) -/

/-- strnlen(s, count): length of the NUL-terminated string, or `count`
when no NUL occurs within the first `count` bytes. -/
def strnlen (s : List Nat) (count : Nat) : Nat :=
  ((s.take count).takeWhile (fun b => b ≠ 0)).length

/-- strscpy(dst, src, size): copy the NUL-terminated string when it fits,
returning its length; on truncation copy size-1 bytes and return -E2BIG.
Returns (return value, string bytes stored in dst). -/
def strscpy (src : List Nat) (size : Nat) : Int × List Nat :=
  let s := (src.take size).takeWhile (fun b => b ≠ 0)
  if s.length < size then ((s.length : Int), s)
  else (-E2BIG, src.take (size - 1))

/-- Size of the desc field of the network-info response (char desc[32]). -/
def NETWORK_INFO_DESC_SIZE : Nat := 32

/-- struct ethosu_rpmsg_network_info_rsp (wire payload).  `desc` is the
raw 32-byte buffer. -/
structure NetInfoRspWire where
  desc : List Nat
  ifm_count : Nat
  ifm_size : Nat → Nat
  ofm_count : Nat
  ofm_size : Nat → Nat
  status : Nat

/-- The user-visible struct ethosu_uapi_network_info. -/
structure NetInfoUapi where
  desc : List Nat
  ifm_count : Nat
  ifm_size : Nat → Nat
  ofm_count : Nat
  ofm_size : Nat → Nat

/-- The mutable state of struct ethosu_rpmsg_network_info. -/
structure NetInfoState where
  errno : Int
  completionDone : Bool
  uapi : NetInfoUapi

/-- ethosu_rpmsg_network_info_rsp: kind-checked lookup, completion_done
guard, errno := 0, then the three validations in source order (status,
FD limits, NUL termination of desc), the strscpy of the description and
the element-wise size copies, finally complete(&done). -/
def ethosu_rpmsg_network_info_rsp (tbl : IdTable) (msg_id : Nat)
    (st : NetInfoState) (rsp : NetInfoRspWire) : NetInfoState :=
  match (ethosu_rpmsg_mailbox_find tbl msg_id ETHOSU_RPMSG_NETWORK_INFO_REQ).1 with
  | .error _ => st
  | .ok _ =>
    if st.completionDone then st
    else
      let st0 := { st with errno := 0 }
      if rsp.status ≠ ETHOSU_RPMSG_STATUS_OK then
        { st0 with errno := -EBADF, completionDone := true }
      else if rsp.ifm_count > ETHOSU_FD_MAX ∨ rsp.ofm_count > ETHOSU_FD_MAX then
        { st0 with errno := -ENFILE, completionDone := true }
      else if strnlen rsp.desc NETWORK_INFO_DESC_SIZE = NETWORK_INFO_DESC_SIZE then
        { st0 with errno := -EMSGSIZE, completionDone := true }
      else
        let cp := strscpy rsp.desc NETWORK_INFO_DESC_SIZE
        if cp.1 < 0 then
          { st0 with
            errno := cp.1,
            completionDone := true,
            uapi := { st0.uapi with desc := cp.2 } }
        else
          { st0 with
            completionDone := true,
            uapi :=
              { desc := cp.2,
                ifm_count := rsp.ifm_count,
                ifm_size := copyIdx st0.uapi.ifm_size rsp.ifm_size rsp.ifm_count,
                ofm_count := rsp.ofm_count,
                ofm_size := copyIdx st0.uapi.ofm_size rsp.ofm_size rsp.ofm_count } }

/-! ## Network creation (part ethosu_rpmsg_network.c)

The network kind of struct ethosu_uapi_network_create.  Modelled from the
spec: the enum lives in uapi/ethosu.h, which is not in the sources at
hand; the spec gives kind ∈ \x7bUSER_BUFFER, INDEX\x7d. -/

inductive NetworkKind where
  | user_buffer
  | index
deriving DecidableEq, Repr

/-- struct ethosu_uapi_network_create. -/
structure NetCreateUapi where
  kind : NetworkKind
  data_ptr : Nat
  size : Nat
  index : Nat
deriving DecidableEq, Repr

/-- A DMA memory region: its size and its CPU-visible contents. -/
structure DmaMem where
  size : Nat
  bytes : List Nat
deriving DecidableEq, Repr

/-- ethosu_dma_mem_alloc: -EINVAL on zero size, -ENOMEM when either the
struct allocation or dma_alloc_coherent fails (`allocOk` is the
environment's verdict), else a zeroed region of exactly `size` bytes. -/
def ethosu_dma_mem_alloc (size : Nat) (allocOk : Bool) : Except Int DmaMem :=
  if size = 0 then .error (-EINVAL)
  else if allocOk = false then .error (-ENOMEM)
  else .ok ⟨size, List.replicate size 0⟩

/-- copy_from_user(dst, src, n) with the environment prescribing how many
bytes could not be copied (0 = full success).  Returns the uncopied count
(the C return value) and the destination contents: the first n - uncopied
bytes take the user's values, the rest keep the allocation's zeroes. -/
def copy_from_user (dst : DmaMem) (src : Nat → Nat) (n uncopied : Nat) :
    Nat × DmaMem :=
  (uncopied,
   { dst with
     bytes := (List.range dst.size).map
       (fun i => if i < n - uncopied then src i else 0) })

/-- The fields of struct ethosu_rpmsg_network set at creation. -/
structure NetState where
  dma_mem : Option DmaMem
  index : Nat
deriving DecidableEq, Repr

/-- Environment of ethosu_rpmsg_network_create: allocation outcomes, the
user memory at uapi->network.data_ptr, the copy_from_user verdict and the
anon-inode fd result. -/
structure NetCreateEnv where
  structAllocOk : Bool
  dmaAllocOk : Bool
  userBytes : Nat → Nat
  copyUncopied : Nat
  fdRet : Int

/-- ethosu_rpmsg_network_create: returns the function's return value and
the surviving network object (none whenever the error paths freed it).
Faithful to the source, the copy_from_user failure path returns `ret`,
the positive count of uncopied bytes, unchanged. -/
def ethosu_rpmsg_network_create (uapi : NetCreateUapi) (env : NetCreateEnv) :
    Int × Option NetState :=
  if env.structAllocOk = false then (-ENOMEM, none)
  else
    match uapi.kind with
    | .user_buffer =>
      if uapi.data_ptr = 0 then (-EINVAL, none)
      else if uapi.size = 0 then (-EINVAL, none)
      else
        match ethosu_dma_mem_alloc uapi.size env.dmaAllocOk with
        | .error e => (e, none)
        | .ok dma =>
          let cp := copy_from_user dma env.userBytes uapi.size env.copyUncopied
          if cp.1 ≠ 0 then ((cp.1 : Int), none)
          else if env.fdRet < 0 then (env.fdRet, none)
          else (env.fdRet, some ⟨some cp.2, 0⟩)
    | .index =>
      if env.fdRet < 0 then (env.fdRet, none)
      else (env.fdRet, some ⟨none, uapi.index⟩)

/-! ## Inference creation (part ethosu_rpmsg_inference.c) -/

/-- struct ethosu_uapi_inference_create.  Modelled from the spec for the
field layout of uapi/ethosu.h (fd arrays of FD_MAX entries, a PMU config
of P event slots and a cycle-counter enable). -/
structure InfCreateUapi where
  ifm_count : Nat
  ofm_count : Nat
  ifm_fd : Nat → Nat
  ofm_fd : Nat → Nat
  pmu_events : Nat → Nat
  pmu_cycle_count : Nat

/-- ethosu_rpmsg_mailbox_inference refuses to encode the request unless
the caller-side PMU slot count equals the wire slot count; otherwise the
result is that of the blocking send (environment-provided). -/
def ethosu_rpmsg_mailbox_inference_ret (pmu_event_config_count : Nat)
    (sendRet : Int) : Int :=
  if pmu_event_config_count ≠ ETHOSU_RPMSG_PMU_MAX then -EINVAL else sendRet

/-- Environment of ethosu_rpmsg_inference_create: the struct allocation
verdict, per-index buffer-from-fd outcomes (none = success), the blocking
send result and the anon-inode fd result. -/
structure InfCreateEnv where
  allocOk : Bool
  ifmGet : Nat → Option Int
  ofmGet : Nat → Option Int
  sendRet : Int
  fdRet : Int

/-- First index below `n` at which `get` fails, with its error. -/
def firstGetFail (get : Nat → Option Int) (n : Nat) : Option (Nat × Int) :=
  (List.range n).findSome? (fun i => (get i).map (fun e => (i, e)))

/-- Observable outcome of ethosu_rpmsg_inference_create: the return value,
the mailbox afterwards, and the refcount traffic on buffers and on the
network caused by the call. -/
structure InfCreateResult where
  ret : Int
  mbox : Mailbox
  bufferGets : Nat
  bufferPuts : Nat
  netGets : Nat
  netPuts : Nat

/-- ethosu_rpmsg_inference_create: the FD_MAX guard, struct allocation,
mailbox registration, the IFM/OFM acquisition loops with their unwind
paths, the network refcount, the send and the fd creation.  Every error
path deregisters and releases exactly what had been acquired. -/
def ethosu_rpmsg_inference_create (m : Mailbox) (uapi : InfCreateUapi)
    (env : InfCreateEnv) : InfCreateResult :=
  if uapi.ifm_count > ETHOSU_FD_MAX ∨ uapi.ofm_count > ETHOSU_FD_MAX then
    ⟨-EFAULT, m, 0, 0, 0, 0⟩
  else if env.allocOk = false then
    ⟨-ENOMEM, m, 0, 0, 0, 0⟩
  else
    let reg := ethosu_rpmsg_mailbox_register m ⟨0, 0⟩
    if reg.ret ≠ 0 then ⟨reg.ret, m, 0, 0, 0, 0⟩
    else
      match firstGetFail env.ifmGet uapi.ifm_count with
      | some ke =>
        ⟨ke.2, ethosu_rpmsg_mailbox_deregister reg.mbox reg.id, ke.1, ke.1, 0, 0⟩
      | none =>
        match firstGetFail env.ofmGet uapi.ofm_count with
        | some ke =>
          ⟨ke.2, ethosu_rpmsg_mailbox_deregister reg.mbox reg.id,
           uapi.ifm_count + ke.1, uapi.ifm_count + ke.1, 0, 0⟩
        | none =>
          let sret := ethosu_rpmsg_mailbox_inference_ret ETHOSU_PMU_EVENT_MAX env.sendRet
          if sret ≠ 0 then
            ⟨sret, ethosu_rpmsg_mailbox_deregister reg.mbox reg.id,
             uapi.ifm_count + uapi.ofm_count, uapi.ifm_count + uapi.ofm_count, 1, 1⟩
          else if env.fdRet < 0 then
            ⟨env.fdRet, ethosu_rpmsg_mailbox_deregister reg.mbox reg.id,
             uapi.ifm_count + uapi.ofm_count, uapi.ifm_count + uapi.ofm_count, 1, 1⟩
          else
            ⟨env.fdRet, reg.mbox,
             uapi.ifm_count + uapi.ofm_count, 0, 1, 0⟩

/-! ## Concrete example inputs used by counterexamples and witnesses -/

/-- A table holding one registered inference request at id 0. -/
def pmuTblExample : IdTable := [(0, ⟨ETHOSU_RPMSG_INFERENCE_REQ, 0⟩)]

/-- A running inference with one OFM buffer and zeroed PMU state. -/
def pmuInfExample : InfState :=
  { done := false, ofm_count := 1, status := .running,
    pmu_event_config := fun _ => 0, pmu_event_count := fun _ => 0,
    pmu_cycle_counter_enable := 0, pmu_cycle_counter_count := 0 }

/-- An OK inference response whose i-th PMU config slot holds i+1 and
whose i-th PMU count slot holds 10*(i+1). -/
def pmuRspExample : InfRspWire :=
  { ofm_count := 1, ofm_size := fun _ => 256, status := ETHOSU_RPMSG_STATUS_OK,
    pmu_event_config := fun i => i + 1, pmu_event_count := fun i => 10 * (i + 1),
    pmu_cycle_counter_enable := 1, pmu_cycle_counter_count := 12345 }

/-- A network-create request of kind USER_BUFFER with a valid pointer and
a 64-byte payload. -/
def netCreateUapiExample : NetCreateUapi := ⟨.user_buffer, 4096, 64, 0⟩

/-- An environment in which allocations succeed, the fd would be 5, but
copy_from_user faults on every byte (returns 64 uncopied bytes). -/
def netCreateEnvExample : NetCreateEnv :=
  { structAllocOk := true, dmaAllocOk := true, userBytes := fun _ => 171,
    copyUncopied := 64, fdRet := 5 }

/-- A fresh mailbox before any registration. -/
def mboxExample : Mailbox := { table := [], nextId := 0, done := false, sendQueue := [] }

/-- An inference-create request exceeding the FD limit (17 IFM buffers). -/
def infCreateUapiExample : InfCreateUapi :=
  { ifm_count := 17, ofm_count := 1, ifm_fd := fun _ => 3, ofm_fd := fun _ => 4,
    pmu_events := fun _ => 0, pmu_cycle_count := 0 }

/-- A benign inference-create environment: every acquisition succeeds. -/
def infCreateEnvExample : InfCreateEnv :=
  { allocOk := true, ifmGet := fun _ => none, ofmGet := fun _ => none,
    sendRet := 0, fdRet := 6 }

/-- A version state whose completion has not been signalled yet. -/
def versionStExample : VersionState := { errno := 0, completionDone := false }

/-- A table holding one registered version request at id 1. -/
def versionTblExample : IdTable := [(1, ⟨ETHOSU_RPMSG_VERSION_REQ, 1⟩)]

/-- A version response that differs from the expected version only in the
patch field. -/
def versionRspExample : VersionRspWire := ⟨0, 2, 9⟩

/-- A table holding one request of each correlated response kind. -/
def allKindsTblExample : IdTable :=
  [(0, ⟨ETHOSU_RPMSG_VERSION_REQ, 0⟩),
   (1, ⟨ETHOSU_RPMSG_CAPABILITIES_REQ, 1⟩),
   (2, ⟨ETHOSU_RPMSG_NETWORK_INFO_REQ, 2⟩),
   (3, ⟨ETHOSU_RPMSG_CANCEL_INFERENCE_REQ, 3⟩)]

/-- A capabilities state whose completion has already been signalled. -/
def capStExample : CapState :=
  { errno := -EFAULT, completionDone := true,
    uapi := ⟨0, 0, 0, 0, 0, 0, 0, 0, 0, 0, 0, 0, 0⟩ }

/-- An arbitrary capabilities response. -/
def capRspExample : CapRspWire := ⟨1, 2, 3, 4, 5, 6, 7, 8, 9, 10, 11, 12, 13⟩

/-- A cancel state whose completion has already been signalled. -/
def cancelStExample : CancelState :=
  { errno := -EFAULT, completionDone := true, uapiStatus := .error }

/-- A settled network-info state with recognisable uapi contents. -/
def netInfoStExample : NetInfoState :=
  { errno := 0, completionDone := true,
    uapi := { desc := [65, 0], ifm_count := 1, ifm_size := fun _ => 256,
              ofm_count := 1, ofm_size := fun _ => 256 } }

/-- A live network-info state with zeroed uapi contents. -/
def netInfoLiveStExample : NetInfoState :=
  { errno := 0, completionDone := false,
    uapi := { desc := [], ifm_count := 0, ifm_size := fun _ => 0,
              ofm_count := 0, ofm_size := fun _ => 0 } }

/-- A valid network-info response: OK status, one IFM and one OFM, and a
NUL-terminated description of 3 characters inside the 32-byte buffer. -/
def netInfoRspExample : NetInfoRspWire :=
  { desc := [78, 69, 84] ++ List.replicate 29 0,
    ifm_count := 1, ifm_size := fun _ => 256,
    ofm_count := 1, ofm_size := fun _ => 512,
    status := ETHOSU_RPMSG_STATUS_OK }

/-- A network-info response rejected by the FD-limit validation. -/
def netInfoBadRspExample : NetInfoRspWire :=
  { netInfoRspExample with ifm_count := 17 }

/-! ## Helper lemmas -/

theorem copyIdx_succ (dst src : Nat → Nat) (n : Nat) :
    copyIdx dst src (n + 1) = fun j => if j = n then src n else copyIdx dst src n j := by
  simp [copyIdx, List.range_succ]

theorem copyIdx_lt (dst src : Nat → Nat) (n i : Nat) (h : i < n) :
    copyIdx dst src n i = src i := by
  induction n with
  | zero => omega
  | succ n ih =>
    rw [copyIdx_succ]
    by_cases hi : i = n
    · simp [hi]
    · simp [hi]
      exact ih (by omega)

theorem copyIdx_ge (dst src : Nat → Nat) (n i : Nat) (h : n ≤ i) :
    copyIdx dst src n i = dst i := by
  induction n with
  | zero => simp [copyIdx]
  | succ n ih =>
    rw [copyIdx_succ]
    have hi : i ≠ n := by omega
    simp [hi]
    exact ih (by omega)

/-! ## Claim theorems -/

/-- Claim C4: for every mailbox lookup find(id, expected_kind), if an entry
is registered under id but its kind differs from expected_kind, the lookup
returns KindMismatch (-EINVAL) and the entry remains registered in the
unmodified table; if no entry is registered under id, the lookup returns
NotFound (-ENOENT). -/
theorem ethosu_mailbox_find_spec (tbl : IdTable) (msg_id expected : Nat) :
    (∀ e : MboxMsg, idr_find tbl msg_id = some e → e.type ≠ expected →
      (ethosu_rpmsg_mailbox_find tbl msg_id expected).1 = .error (-EINVAL) ∧
      (ethosu_rpmsg_mailbox_find tbl msg_id expected).2 = tbl ∧
      idr_find (ethosu_rpmsg_mailbox_find tbl msg_id expected).2 msg_id = some e) ∧
    (idr_find tbl msg_id = none →
      (ethosu_rpmsg_mailbox_find tbl msg_id expected).1 = .error (-ENOENT)) := by
  constructor
  · intro e he hne
    simp [ethosu_rpmsg_mailbox_find, he, hne]
  · intro h
    simp [ethosu_rpmsg_mailbox_find, h]

/-- Witness for C4 at a concrete table: id 5 registered with kind 6
(VERSION_REQ), looked up expecting kind 4 (INFERENCE_REQ), and a lookup of
an unregistered id. -/
theorem ethosu_mailbox_find_spec_witness :
    (ethosu_rpmsg_mailbox_find [(5, ⟨6, 0⟩)] 5 4).1 = .error (-EINVAL) ∧
    (ethosu_rpmsg_mailbox_find [(5, ⟨6, 0⟩)] 5 4).2 = [(5, ⟨6, 0⟩)] ∧
    idr_find (ethosu_rpmsg_mailbox_find [(5, ⟨6, 0⟩)] 5 4).2 5 = some ⟨6, 0⟩ ∧
    (ethosu_rpmsg_mailbox_find [(7, ⟨6, 0⟩)] 5 4).1 = .error (-ENOENT) := by
  have h1 := (ethosu_mailbox_find_spec [(5, ⟨6, 0⟩)] 5 4).1 ⟨6, 0⟩ rfl (by decide)
  have h2 := (ethosu_mailbox_find_spec [(7, ⟨6, 0⟩)] 5 4).2 rfl
  exact ⟨h1.1, h1.2.1, h1.2.2, h2⟩

/-- Claim C5 counterexample: after mailbox shutdown has completed (deinit
set the done flag), a register call does NOT return NoDevice: on a fresh
shut-down mailbox it allocates id 0 and returns 0.  The source of
ethosu_rpmsg_mailbox_register never reads the shutdown flag. -/
theorem ethosu_mailbox_register_after_shutdown_counterexample :
    (ethosu_rpmsg_mailbox_deinit mboxExample).done = true ∧
    (ethosu_rpmsg_mailbox_register (ethosu_rpmsg_mailbox_deinit mboxExample) ⟨0, 0⟩).ret = 0 ∧
    (0 : Int) ≠ -ENODEV := by
  refine ⟨rfl, ?_, by decide⟩
  rfl

/-- Claim C5 amended: register ignores the shutdown flag entirely — after
shutdown it still succeeds (returns 0) whenever a free correlation id
exists; the NoDevice error is produced instead by the blocking sender,
which returns -ENODEV as soon as it observes the shutdown flag. -/
theorem ethosu_mailbox_register_after_shutdown_amended :
    (∀ (m : Mailbox) (msg : MboxMsg),
      (ethosu_rpmsg_mailbox_register (ethosu_rpmsg_mailbox_deinit m) msg).ret =
        (ethosu_rpmsg_mailbox_register m msg).ret) ∧
    (∀ (m : Mailbox) (msg : MboxMsg) (id : Nat),
      idr_alloc_cyclic m.table m.nextId = some id →
      (ethosu_rpmsg_mailbox_register (ethosu_rpmsg_mailbox_deinit m) msg).ret = 0) ∧
    (∀ (it : SendIter) (rest : List SendIter) (t : Bool) (tm : Nat),
      it.done = true → ethosu_send_loop (it :: rest) t tm = some (-ENODEV)) := by
  refine ⟨?_, ?_, ?_⟩
  · intro m msg
    simp only [ethosu_rpmsg_mailbox_register, ethosu_rpmsg_mailbox_deinit]
    cases idr_alloc_cyclic m.table m.nextId <;> rfl
  · intro m msg id h
    simp only [ethosu_rpmsg_mailbox_register, ethosu_rpmsg_mailbox_deinit, h]
  · intro it rest t tm h
    simp [ethosu_send_loop, h]

/-- Witness for the amended C5 at concrete inputs: a fresh mailbox that is
shut down, then registered into; and a sender that observes the shutdown
flag in its first iteration. -/
theorem ethosu_mailbox_register_after_shutdown_amended_witness :
    idr_alloc_cyclic mboxExample.table mboxExample.nextId = some 0 ∧
    (ethosu_rpmsg_mailbox_register (ethosu_rpmsg_mailbox_deinit mboxExample) ⟨0, 0⟩).ret = 0 ∧
    ethosu_send_loop [⟨true, 0, 0, false⟩] true MAILBOX_SEND_TIMEOUT_MS = some (-ENODEV) := by
  have h0 : idr_alloc_cyclic mboxExample.table mboxExample.nextId = some 0 := rfl
  refine ⟨h0, ?_, ?_⟩
  · exact ethosu_mailbox_register_after_shutdown_amended.2.1 mboxExample ⟨0, 0⟩ 0 h0
  · exact ethosu_mailbox_register_after_shutdown_amended.2.2 ⟨true, 0, 0, false⟩ [] true MAILBOX_SEND_TIMEOUT_MS rfl

/-- In a trace where every iteration keeps waiting (no shutdown, trysend
out of slots, no signal), the loop returns -ETIME once the accumulated
wait consumes the whole remaining budget. -/
theorem ethosu_send_loop_timeout (iters : List SendIter) :
    ∀ tm : Nat, tm ≠ 0 →
    (∀ it ∈ iters, it.done = false ∧ it.trySendRet = -ENOMEM ∧ it.signal = false) →
    tm ≤ (iters.map SendIter.waitElapsed).sum →
    ∀ t : Bool, ethosu_send_loop iters t tm = some (-ETIME) := by
  induction iters with
  | nil =>
    intro tm h0 _ hsum _
    simp at hsum
    omega
  | cons it rest ih =>
    intro tm h0 hall hsum t
    obtain ⟨hd, hts, hs⟩ := hall it (List.mem_cons_self it rest)
    by_cases he : tm - it.waitElapsed = 0
    · simp [ethosu_send_loop, hd, hts, hs, he]
    · simp only [ethosu_send_loop, hd, hts, hs, he]
      simp only [Bool.false_eq_true, if_false, ite_false, ne_eq, not_true_eq_false,
        and_false, false_and, if_neg]
      have hrec := ih (tm - it.waitElapsed) he
        (fun x hx => hall x (List.mem_cons_of_mem it hx))
        (by simp at hsum ⊢; omega) true
      simp [hs, he, hrec]

/-- Claim C3: the blocking serialized sender returns -ENODEV (NoDevice)
whenever the loop observes the shutdown flag — at entry or when re-checking
after a wait; it returns -ETIME (Timeout) when the overall 15-second
budget is consumed by an all-waiting trace; it returns -EINTR
(Interrupted) when a signal is pending after a wait; and after a
successful send (ret = 0) with tasks still on the send queue, exactly one
of them is woken. -/
theorem ethosu_send_locked_spec :
    (∀ (hasSleeper : Bool) (it : SendIter) (rest : List SendIter),
      it.done = true →
      ethosu_send_locked hasSleeper (it :: rest) = some (-ENODEV)) ∧
    (∀ (it : SendIter) (rest : List SendIter) (t : Bool) (tm : Nat),
      it.done = true → ethosu_send_loop (it :: rest) t tm = some (-ENODEV)) ∧
    (∀ (hasSleeper : Bool) (iters : List SendIter),
      (∀ it ∈ iters, it.done = false ∧ it.trySendRet = -ENOMEM ∧ it.signal = false) →
      MAILBOX_SEND_TIMEOUT_MS ≤ (iters.map SendIter.waitElapsed).sum →
      ethosu_send_locked hasSleeper iters = some (-ETIME)) ∧
    (∀ (it : SendIter) (rest : List SendIter) (t : Bool) (tm : Nat),
      it.done = false → (t = false ∨ it.trySendRet = -ENOMEM) → it.signal = true →
      ethosu_send_loop (it :: rest) t tm = some (-EINTR)) ∧
    (∀ queue : List Nat, queue ≠ [] → ethosu_send_wake 0 queue = (queue.tail, 1)) := by
  refine ⟨?_, ?_, ?_, ?_, ?_⟩
  · intro hasSleeper it rest h
    simp [ethosu_send_locked, ethosu_send_loop, h]
  · intro it rest t tm h
    simp [ethosu_send_loop, h]
  · intro hasSleeper iters hall hsum
    exact ethosu_send_loop_timeout iters MAILBOX_SEND_TIMEOUT_MS (by decide) hall hsum _
  · intro it rest t tm hd hwait hs
    rcases hwait with hw | hw
    · subst hw
      simp [ethosu_send_loop, hd, hs]
    · simp [ethosu_send_loop, hd, hw, hs]
  · intro queue hq
    simp [ethosu_send_wake, hq]

/-- Witness for C3 at concrete traces: shutdown observed at entry; an
all-waiting trace exhausting the 15 s budget; a signal pending after the
first wait; and a successful send waking exactly one of two waiters. -/
theorem ethosu_send_locked_spec_witness :
    ethosu_send_locked false [⟨true, 0, 0, false⟩] = some (-ENODEV) ∧
    ethosu_send_locked false
      [⟨false, -ENOMEM, 8000, false⟩, ⟨false, -ENOMEM, 8000, false⟩] = some (-ETIME) ∧
    ethosu_send_loop [⟨false, -ENOMEM, 100, true⟩] true 15000 = some (-EINTR) ∧
    ethosu_send_wake 0 [7, 8] = ([8], 1) := by
  refine ⟨?_, ?_, ?_, ?_⟩
  · exact ethosu_send_locked_spec.1 false ⟨true, 0, 0, false⟩ [] rfl
  · refine ethosu_send_locked_spec.2.2.1 false _ ?_ (by decide)
    intro it hit
    simp at hit
    simp [hit]
  · exact ethosu_send_locked_spec.2.2.2.1 ⟨false, -ENOMEM, 100, true⟩ [] true 15000 rfl
      (Or.inr rfl) rfl
  · exact ethosu_send_locked_spec.2.2.2.2 [7, 8] (by decide)

/-- Claim C1: for an inference response whose correlation id is found with
kind INFERENCE_REQ — if the inference is ABORTING or ABORTED its next
status is ABORTED regardless of the response; otherwise the next status is
OK when the response status is RPMSG_OK and ofm_count ≤ BUFFER_MAX (16),
REJECTED on RPMSG_REJECTED, ABORTED on RPMSG_ABORTED, and ERROR for any
other response status; in every case the handler sets done = true, wakes
pollers and drops the mailbox's reference (one put). -/
theorem ethosu_inference_rsp_spec (tbl : IdTable) (msg_id : Nat) (inf : InfState)
    (rsp : InfRspWire)
    (hfind : ((ethosu_rpmsg_mailbox_find tbl msg_id ETHOSU_RPMSG_INFERENCE_REQ).1).isOk = true) :
    ((inf.status = .aborting ∨ inf.status = .aborted) →
      (ethosu_rpmsg_inference_rsp tbl msg_id inf rsp).inf.status = .aborted) ∧
    (inf.status ≠ .aborting → inf.status ≠ .aborted →
      ((rsp.status = ETHOSU_RPMSG_STATUS_OK ∧ inf.ofm_count ≤ ETHOSU_RPMSG_BUFFER_MAX →
        (ethosu_rpmsg_inference_rsp tbl msg_id inf rsp).inf.status = .ok) ∧
       (rsp.status = ETHOSU_RPMSG_STATUS_REJECTED →
        (ethosu_rpmsg_inference_rsp tbl msg_id inf rsp).inf.status = .rejected) ∧
       (rsp.status = ETHOSU_RPMSG_STATUS_ABORTED →
        (ethosu_rpmsg_inference_rsp tbl msg_id inf rsp).inf.status = .aborted) ∧
       (rsp.status ≠ ETHOSU_RPMSG_STATUS_OK → rsp.status ≠ ETHOSU_RPMSG_STATUS_REJECTED →
        rsp.status ≠ ETHOSU_RPMSG_STATUS_ABORTED →
        (ethosu_rpmsg_inference_rsp tbl msg_id inf rsp).inf.status = .error))) ∧
    (ethosu_rpmsg_inference_rsp tbl msg_id inf rsp).inf.done = true ∧
    (ethosu_rpmsg_inference_rsp tbl msg_id inf rsp).woke = true ∧
    (ethosu_rpmsg_inference_rsp tbl msg_id inf rsp).puts = 1 := by
  rcases hok : (ethosu_rpmsg_mailbox_find tbl msg_id ETHOSU_RPMSG_INFERENCE_REQ).1 with e | m
  · rw [hok] at hfind
    simp [Except.isOk, Except.toBool] at hfind
  · refine ⟨?_, ?_, ?_, ?_, ?_⟩
    · intro habort
      rcases habort with h | h <;>
        simp [ethosu_rpmsg_inference_rsp, hok, h]
    · intro h1 h2
      refine ⟨?_, ?_, ?_, ?_⟩
      · intro hcase
        simp [ethosu_rpmsg_inference_rsp, hok, h1, h2, hcase.1, hcase.2,
          ETHOSU_RPMSG_STATUS_OK]
      · intro hcase
        simp [ethosu_rpmsg_inference_rsp, hok, h1, h2, hcase,
          ETHOSU_RPMSG_STATUS_OK, ETHOSU_RPMSG_STATUS_REJECTED,
          ETHOSU_RPMSG_STATUS_ABORTED]
      · intro hcase
        simp [ethosu_rpmsg_inference_rsp, hok, h1, h2, hcase,
          ETHOSU_RPMSG_STATUS_OK, ETHOSU_RPMSG_STATUS_REJECTED,
          ETHOSU_RPMSG_STATUS_ABORTED]
      · intro hn1 hn2 hn3
        simp [ethosu_rpmsg_inference_rsp, hok, h1, h2, hn1, hn2, hn3]
    · simp [ethosu_rpmsg_inference_rsp, hok]
    · simp [ethosu_rpmsg_inference_rsp, hok]
    · simp [ethosu_rpmsg_inference_rsp, hok]

/-- Witness for C1: a registered inference request at id 0, a running
inference, and an OK response; the handler ends in status OK with done set,
pollers woken and one reference dropped. -/
theorem ethosu_inference_rsp_spec_witness :
    ((ethosu_rpmsg_mailbox_find pmuTblExample 0 ETHOSU_RPMSG_INFERENCE_REQ).1).isOk = true ∧
    (ethosu_rpmsg_inference_rsp pmuTblExample 0 pmuInfExample pmuRspExample).inf.status = .ok ∧
    (ethosu_rpmsg_inference_rsp pmuTblExample 0 pmuInfExample pmuRspExample).inf.done = true ∧
    (ethosu_rpmsg_inference_rsp pmuTblExample 0 pmuInfExample pmuRspExample).woke = true ∧
    (ethosu_rpmsg_inference_rsp pmuTblExample 0 pmuInfExample pmuRspExample).puts = 1 := by
  have hfind :
      ((ethosu_rpmsg_mailbox_find pmuTblExample 0 ETHOSU_RPMSG_INFERENCE_REQ).1).isOk = true := rfl
  have h := ethosu_inference_rsp_spec pmuTblExample 0 pmuInfExample pmuRspExample hfind
  refine ⟨hfind, ?_, h.2.2.1, h.2.2.2.1, h.2.2.2.2⟩
  exact (h.2.1 (by decide) (by decide)).1 ⟨rfl, by decide⟩

/-- Claim C2 (refuted — the code writes beyond the P = 4 PMU slots): on an
OK response the handler's copy loop runs to ETHOSU_RPMSG_PMU_MAX = 8, so
it stores response data at indices 4..7 of pmu_event_config and
pmu_event_count, past the last valid slot (index 3) of the inference's
ETHOSU_PMU_EVENT_MAX-sized arrays.  Evaluated here at a concrete OK
response: slots 4 and 7 receive the response's out-of-range values. -/
theorem ethosu_inference_rsp_pmu_out_of_bounds :
    ETHOSU_PMU_EVENT_MAX = 4 ∧ ETHOSU_RPMSG_PMU_MAX = 8 ∧
    (ethosu_rpmsg_inference_rsp pmuTblExample 0 pmuInfExample pmuRspExample).inf.pmu_event_config
        ETHOSU_PMU_EVENT_MAX = 5 ∧
    (ethosu_rpmsg_inference_rsp pmuTblExample 0 pmuInfExample pmuRspExample).inf.pmu_event_count
        (ETHOSU_PMU_EVENT_MAX + 3) = 80 ∧
    pmuInfExample.pmu_event_config ETHOSU_PMU_EVENT_MAX = 0 ∧
    pmuInfExample.pmu_event_count (ETHOSU_PMU_EVENT_MAX + 3) = 0 := by
  refine ⟨rfl, rfl, ?_, ?_, rfl, rfl⟩
  · rfl
  · rfl

/-- Claim C7: the version-check request carries no payload, and for a
response delivered to a live waiter the result is -EPROTO (ProtocolError)
exactly when the response's major or minor field differs from the
compile-time expected version (major = 0, minor = 2); a response differing
only in patch is accepted with result 0. -/
theorem ethosu_version_check_spec (tbl : IdTable) (msg_id req_id : Nat)
    (st : VersionState) (rsp : VersionRspWire)
    (hfind : ((ethosu_rpmsg_mailbox_find tbl msg_id ETHOSU_RPMSG_VERSION_REQ).1).isOk = true)
    (hlive : st.completionDone = false) :
    (ethosu_rpmsg_mailbox_version_request_packet req_id).payloadLen = 0 ∧
    ((ethosu_rpmsg_version_rsp tbl msg_id st rsp).errno = -EPROTO ↔
      (rsp.major ≠ ETHOSU_RPMSG_VERSION_MAJOR ∨ rsp.minor ≠ ETHOSU_RPMSG_VERSION_MINOR)) ∧
    (rsp.major = ETHOSU_RPMSG_VERSION_MAJOR → rsp.minor = ETHOSU_RPMSG_VERSION_MINOR →
      (ethosu_rpmsg_version_rsp tbl msg_id st rsp).errno = 0) ∧
    (ethosu_rpmsg_version_rsp tbl msg_id st rsp).completionDone = true := by
  rcases hok : (ethosu_rpmsg_mailbox_find tbl msg_id ETHOSU_RPMSG_VERSION_REQ).1 with e | m
  · rw [hok] at hfind
    simp [Except.isOk, Except.toBool] at hfind
  · refine ⟨rfl, ?_, ?_, ?_⟩
    · by_cases hmm : rsp.major ≠ ETHOSU_RPMSG_VERSION_MAJOR ∨ rsp.minor ≠ ETHOSU_RPMSG_VERSION_MINOR
      · simp [ethosu_rpmsg_version_rsp, hok, hlive, hmm]
      · simp only [ethosu_rpmsg_version_rsp, hok, hlive, if_neg hmm, Bool.false_eq_true, if_false]
        simp [hmm]
        decide
    · intro hmaj hmin
      simp [ethosu_rpmsg_version_rsp, hok, hlive, hmaj, hmin]
    · by_cases hmm : rsp.major ≠ ETHOSU_RPMSG_VERSION_MAJOR ∨ rsp.minor ≠ ETHOSU_RPMSG_VERSION_MINOR
      · simp [ethosu_rpmsg_version_rsp, hok, hlive, hmm]
      · simp [ethosu_rpmsg_version_rsp, hok, hlive, hmm]

/-- Witness for C7: a registered version request at id 1 and a response
matching in major and minor but not in patch is accepted with errno 0. -/
theorem ethosu_version_check_spec_witness :
    ((ethosu_rpmsg_mailbox_find versionTblExample 1 ETHOSU_RPMSG_VERSION_REQ).1).isOk = true ∧
    versionStExample.completionDone = false ∧
    (ethosu_rpmsg_mailbox_version_request_packet 1).payloadLen = 0 ∧
    (ethosu_rpmsg_version_rsp versionTblExample 1 versionStExample versionRspExample).errno = 0 := by
  have hfind :
      ((ethosu_rpmsg_mailbox_find versionTblExample 1 ETHOSU_RPMSG_VERSION_REQ).1).isOk = true := rfl
  have h := ethosu_version_check_spec versionTblExample 1 1 versionStExample versionRspExample
    hfind rfl
  exact ⟨hfind, rfl, h.1, h.2.2.1 rfl rfl⟩

/-- strscpy on a string that is NUL-terminated inside the buffer returns
its length and copies exactly it. -/
theorem strscpy_of_lt (src : List Nat) (size : Nat)
    (h : strnlen src size < size) :
    strscpy src size =
      ((strnlen src size : Int), (src.take size).takeWhile (fun b => b ≠ 0)) := by
  unfold strscpy strnlen
  unfold strnlen at h
  simp only [if_pos h]

/-- Claim C8: for a network-info response delivered to a live waiter — a
non-OK status sets errno to -EBADF (BadFile); an ifm or ofm count above
FD_MAX (16) sets -ENFILE (TooManyFiles); a desc that is not
NUL-terminated within its 32 bytes sets -EMSGSIZE (MessageTooLong);
otherwise errno is 0 and the description, ifm sizes and ofm sizes are
copied to the user-visible result. -/
theorem ethosu_network_info_rsp_spec (tbl : IdTable) (msg_id : Nat)
    (st : NetInfoState) (rsp : NetInfoRspWire)
    (hfind : ((ethosu_rpmsg_mailbox_find tbl msg_id ETHOSU_RPMSG_NETWORK_INFO_REQ).1).isOk = true)
    (hlive : st.completionDone = false) :
    (rsp.status ≠ ETHOSU_RPMSG_STATUS_OK →
      (ethosu_rpmsg_network_info_rsp tbl msg_id st rsp).errno = -EBADF) ∧
    (rsp.status = ETHOSU_RPMSG_STATUS_OK →
      (rsp.ifm_count > ETHOSU_FD_MAX ∨ rsp.ofm_count > ETHOSU_FD_MAX) →
      (ethosu_rpmsg_network_info_rsp tbl msg_id st rsp).errno = -ENFILE) ∧
    (rsp.status = ETHOSU_RPMSG_STATUS_OK →
      rsp.ifm_count ≤ ETHOSU_FD_MAX → rsp.ofm_count ≤ ETHOSU_FD_MAX →
      strnlen rsp.desc NETWORK_INFO_DESC_SIZE = NETWORK_INFO_DESC_SIZE →
      (ethosu_rpmsg_network_info_rsp tbl msg_id st rsp).errno = -EMSGSIZE) ∧
    (rsp.status = ETHOSU_RPMSG_STATUS_OK →
      rsp.ifm_count ≤ ETHOSU_FD_MAX → rsp.ofm_count ≤ ETHOSU_FD_MAX →
      strnlen rsp.desc NETWORK_INFO_DESC_SIZE < NETWORK_INFO_DESC_SIZE →
      (ethosu_rpmsg_network_info_rsp tbl msg_id st rsp).errno = 0 ∧
      (ethosu_rpmsg_network_info_rsp tbl msg_id st rsp).uapi.desc =
        (rsp.desc.take NETWORK_INFO_DESC_SIZE).takeWhile (fun b => b ≠ 0) ∧
      (ethosu_rpmsg_network_info_rsp tbl msg_id st rsp).uapi.ifm_count = rsp.ifm_count ∧
      (ethosu_rpmsg_network_info_rsp tbl msg_id st rsp).uapi.ofm_count = rsp.ofm_count ∧
      (∀ i, i < rsp.ifm_count →
        (ethosu_rpmsg_network_info_rsp tbl msg_id st rsp).uapi.ifm_size i = rsp.ifm_size i) ∧
      (∀ i, i < rsp.ofm_count →
        (ethosu_rpmsg_network_info_rsp tbl msg_id st rsp).uapi.ofm_size i = rsp.ofm_size i)) := by
  rcases hok : (ethosu_rpmsg_mailbox_find tbl msg_id ETHOSU_RPMSG_NETWORK_INFO_REQ).1 with e | m
  · rw [hok] at hfind
    simp [Except.isOk, Except.toBool] at hfind
  · refine ⟨?_, ?_, ?_, ?_⟩
    · intro hstat
      simp [ethosu_rpmsg_network_info_rsp, hok, hlive, hstat]
    · intro hstat hcnt
      simp [ethosu_rpmsg_network_info_rsp, hok, hlive, hstat, hcnt]
    · intro hstat hifm hofm hlen
      have hno : ¬(rsp.ifm_count > ETHOSU_FD_MAX ∨ rsp.ofm_count > ETHOSU_FD_MAX) :=
        not_or.mpr ⟨Nat.not_lt.mpr hifm, Nat.not_lt.mpr hofm⟩
      simp [ethosu_rpmsg_network_info_rsp, hok, hlive, hstat, hno, hlen]
    · intro hstat hifm hofm hlen
      have hno : ¬(rsp.ifm_count > ETHOSU_FD_MAX ∨ rsp.ofm_count > ETHOSU_FD_MAX) :=
        not_or.mpr ⟨Nat.not_lt.mpr hifm, Nat.not_lt.mpr hofm⟩
      have hne : strnlen rsp.desc NETWORK_INFO_DESC_SIZE ≠ NETWORK_INFO_DESC_SIZE :=
        Nat.ne_of_lt hlen
      have hcp := strscpy_of_lt rsp.desc NETWORK_INFO_DESC_SIZE hlen
      have hlt : ¬((strnlen rsp.desc NETWORK_INFO_DESC_SIZE : Int) < 0) :=
        not_lt.mpr (Int.natCast_nonneg _)
      refine ⟨?_, ?_, ?_, ?_, ?_, ?_⟩
      · simp [ethosu_rpmsg_network_info_rsp, hok, hlive, hstat, hno, hne, hcp, hlt]
      · simp [ethosu_rpmsg_network_info_rsp, hok, hlive, hstat, hno, hne, hcp, hlt]
      · simp [ethosu_rpmsg_network_info_rsp, hok, hlive, hstat, hno, hne, hcp, hlt]
      · simp [ethosu_rpmsg_network_info_rsp, hok, hlive, hstat, hno, hne, hcp, hlt]
      · intro i hi
        simp [ethosu_rpmsg_network_info_rsp, hok, hlive, hstat, hno, hne, hcp, hlt]
        exact copyIdx_lt _ _ _ _ hi
      · intro i hi
        simp [ethosu_rpmsg_network_info_rsp, hok, hlive, hstat, hno, hne, hcp, hlt]
        exact copyIdx_lt _ _ _ _ hi

/-- Witness for C8: a registered network-info request at id 2; a valid
response is copied through with errno 0, and a response with 17 IFMs sets
-ENFILE. -/
theorem ethosu_network_info_rsp_spec_witness :
    ((ethosu_rpmsg_mailbox_find allKindsTblExample 2 ETHOSU_RPMSG_NETWORK_INFO_REQ).1).isOk = true ∧
    (ethosu_rpmsg_network_info_rsp allKindsTblExample 2 netInfoLiveStExample netInfoRspExample).errno = 0 ∧
    (ethosu_rpmsg_network_info_rsp allKindsTblExample 2 netInfoLiveStExample netInfoRspExample).uapi.ifm_size 0 = 256 ∧
    (ethosu_rpmsg_network_info_rsp allKindsTblExample 2 netInfoLiveStExample netInfoBadRspExample).errno = -ENFILE := by
  have hfind :
      ((ethosu_rpmsg_mailbox_find allKindsTblExample 2 ETHOSU_RPMSG_NETWORK_INFO_REQ).1).isOk = true := rfl
  have h := ethosu_network_info_rsp_spec allKindsTblExample 2 netInfoLiveStExample
    netInfoRspExample hfind rfl
  have hb := ethosu_network_info_rsp_spec allKindsTblExample 2 netInfoLiveStExample
    netInfoBadRspExample hfind rfl
  have hgood := h.2.2.2 rfl (by decide) (by decide) (by decide)
  refine ⟨hfind, hgood.1, ?_, ?_⟩
  · have := hgood.2.2.2.2.1 0 (by decide)
    simpa [netInfoRspExample] using this
  · exact hb.2.1 rfl (Or.inl (by decide))

/-- Claim C9: an inference-create call whose ifm_count or ofm_count
exceeds FD_MAX (16) returns -EFAULT (Faulted) and has no effect: the
mailbox is unchanged (no correlation id allocated) and no buffer or
network refcount is acquired. -/
theorem ethosu_inference_create_fd_limit (m : Mailbox) (uapi : InfCreateUapi)
    (env : InfCreateEnv)
    (h : uapi.ifm_count > ETHOSU_FD_MAX ∨ uapi.ofm_count > ETHOSU_FD_MAX) :
    (ethosu_rpmsg_inference_create m uapi env).ret = -EFAULT ∧
    (ethosu_rpmsg_inference_create m uapi env).mbox = m ∧
    (ethosu_rpmsg_inference_create m uapi env).bufferGets = 0 ∧
    (ethosu_rpmsg_inference_create m uapi env).netGets = 0 := by
  unfold ethosu_rpmsg_inference_create
  rw [if_pos h]
  exact ⟨rfl, rfl, rfl, rfl⟩

/-- Witness for C9: an inference-create request with 17 IFM buffers in a
benign environment where every step would succeed. -/
theorem ethosu_inference_create_fd_limit_witness :
    (infCreateUapiExample.ifm_count > ETHOSU_FD_MAX ∨
      infCreateUapiExample.ofm_count > ETHOSU_FD_MAX) ∧
    (ethosu_rpmsg_inference_create mboxExample infCreateUapiExample infCreateEnvExample).ret = -EFAULT ∧
    (ethosu_rpmsg_inference_create mboxExample infCreateUapiExample infCreateEnvExample).mbox = mboxExample ∧
    (ethosu_rpmsg_inference_create mboxExample infCreateUapiExample infCreateEnvExample).bufferGets = 0 ∧
    (ethosu_rpmsg_inference_create mboxExample infCreateUapiExample infCreateEnvExample).netGets = 0 := by
  have hlim : infCreateUapiExample.ifm_count > ETHOSU_FD_MAX ∨
      infCreateUapiExample.ofm_count > ETHOSU_FD_MAX := Or.inl (by decide)
  have h := ethosu_inference_create_fd_limit mboxExample infCreateUapiExample
    infCreateEnvExample hlim
  exact ⟨hlim, h.1, h.2.1, h.2.2.1, h.2.2.2⟩

/-- The network-info response handler either leaves the state untouched or
leaves the completion signalled. -/
theorem ethosu_network_info_rsp_done (tbl : IdTable) (msg_id : Nat)
    (st : NetInfoState) (rsp : NetInfoRspWire) :
    ethosu_rpmsg_network_info_rsp tbl msg_id st rsp = st ∨
    (ethosu_rpmsg_network_info_rsp tbl msg_id st rsp).completionDone = true := by
  rcases hok : (ethosu_rpmsg_mailbox_find tbl msg_id ETHOSU_RPMSG_NETWORK_INFO_REQ).1 with e | m
  · left
    simp [ethosu_rpmsg_network_info_rsp, hok]
  · by_cases hd : st.completionDone
    · left
      simp [ethosu_rpmsg_network_info_rsp, hok, hd]
    · right
      simp only [ethosu_rpmsg_network_info_rsp, hok, hd, Bool.false_eq_true, if_false]
      split_ifs <;> rfl

/-- With the completion already signalled the network-info handler is a
no-op. -/
theorem ethosu_network_info_rsp_noop (tbl : IdTable) (msg_id : Nat)
    (st : NetInfoState) (rsp : NetInfoRspWire) (hd : st.completionDone = true) :
    ethosu_rpmsg_network_info_rsp tbl msg_id st rsp = st := by
  rcases hok : (ethosu_rpmsg_mailbox_find tbl msg_id ETHOSU_RPMSG_NETWORK_INFO_REQ).1 with e | m <;>
    simp [ethosu_rpmsg_network_info_rsp, hok, hd]

/-- Claim C10: each of the version, capabilities, cancel-inference and
network-info response handlers is idempotent once the request is settled:
with the completion already signalled a further response with the same
correlation id and kind returns without modifying errno or the
user-visible output, and handling a response twice equals handling it
once. -/
theorem ethosu_rsp_handlers_idempotent (tbl : IdTable) (msg_id : Nat) :
    (∀ (st : VersionState) (rsp : VersionRspWire), st.completionDone = true →
      ethosu_rpmsg_version_rsp tbl msg_id st rsp = st) ∧
    (∀ (st : VersionState) (rsp : VersionRspWire),
      ethosu_rpmsg_version_rsp tbl msg_id (ethosu_rpmsg_version_rsp tbl msg_id st rsp) rsp =
        ethosu_rpmsg_version_rsp tbl msg_id st rsp) ∧
    (∀ (st : CapState) (rsp : CapRspWire), st.completionDone = true →
      ethosu_capability_rsp tbl msg_id st rsp = st) ∧
    (∀ (st : CapState) (rsp : CapRspWire),
      ethosu_capability_rsp tbl msg_id (ethosu_capability_rsp tbl msg_id st rsp) rsp =
        ethosu_capability_rsp tbl msg_id st rsp) ∧
    (∀ (st : CancelState) (rsp : CancelRspWire), st.completionDone = true →
      ethosu_rpmsg_cancel_inference_rsp tbl msg_id st rsp = st) ∧
    (∀ (st : CancelState) (rsp : CancelRspWire),
      ethosu_rpmsg_cancel_inference_rsp tbl msg_id
          (ethosu_rpmsg_cancel_inference_rsp tbl msg_id st rsp) rsp =
        ethosu_rpmsg_cancel_inference_rsp tbl msg_id st rsp) ∧
    (∀ (st : NetInfoState) (rsp : NetInfoRspWire), st.completionDone = true →
      ethosu_rpmsg_network_info_rsp tbl msg_id st rsp = st) ∧
    (∀ (st : NetInfoState) (rsp : NetInfoRspWire),
      ethosu_rpmsg_network_info_rsp tbl msg_id
          (ethosu_rpmsg_network_info_rsp tbl msg_id st rsp) rsp =
        ethosu_rpmsg_network_info_rsp tbl msg_id st rsp) := by
  refine ⟨?_, ?_, ?_, ?_, ?_, ?_, ?_, ?_⟩
  · intro st rsp hd
    rcases hok : (ethosu_rpmsg_mailbox_find tbl msg_id ETHOSU_RPMSG_VERSION_REQ).1 with e | m <;>
      simp [ethosu_rpmsg_version_rsp, hok, hd]
  · intro st rsp
    rcases hok : (ethosu_rpmsg_mailbox_find tbl msg_id ETHOSU_RPMSG_VERSION_REQ).1 with e | m
    · simp [ethosu_rpmsg_version_rsp, hok]
    · by_cases hd : st.completionDone <;>
        simp [ethosu_rpmsg_version_rsp, hok, hd]
  · intro st rsp hd
    rcases hok : (ethosu_rpmsg_mailbox_find tbl msg_id ETHOSU_RPMSG_CAPABILITIES_REQ).1 with e | m <;>
      simp [ethosu_capability_rsp, hok, hd]
  · intro st rsp
    rcases hok : (ethosu_rpmsg_mailbox_find tbl msg_id ETHOSU_RPMSG_CAPABILITIES_REQ).1 with e | m
    · simp [ethosu_capability_rsp, hok]
    · by_cases hd : st.completionDone <;>
        simp [ethosu_capability_rsp, hok, hd]
  · intro st rsp hd
    rcases hok : (ethosu_rpmsg_mailbox_find tbl msg_id ETHOSU_RPMSG_CANCEL_INFERENCE_REQ).1 with e | m <;>
      simp [ethosu_rpmsg_cancel_inference_rsp, hok, hd]
  · intro st rsp
    rcases hok : (ethosu_rpmsg_mailbox_find tbl msg_id ETHOSU_RPMSG_CANCEL_INFERENCE_REQ).1 with e | m
    · simp [ethosu_rpmsg_cancel_inference_rsp, hok]
    · by_cases hd : st.completionDone <;>
        simp [ethosu_rpmsg_cancel_inference_rsp, hok, hd]
  · intro st rsp hd
    exact ethosu_network_info_rsp_noop tbl msg_id st rsp hd
  · intro st rsp
    rcases ethosu_network_info_rsp_done tbl msg_id st rsp with heq | hdone
    · rw [heq]
      exact heq
    · exact ethosu_network_info_rsp_noop tbl msg_id _ rsp hdone

/-- Witness for C10: settled version, capabilities, cancel and
network-info requests are untouched by a further response. -/
theorem ethosu_rsp_handlers_idempotent_witness :
    ethosu_rpmsg_version_rsp allKindsTblExample 0 ⟨0, true⟩ ⟨0, 1, 0⟩ = ⟨0, true⟩ ∧
    ethosu_capability_rsp allKindsTblExample 1 capStExample capRspExample = capStExample ∧
    ethosu_rpmsg_cancel_inference_rsp allKindsTblExample 3 cancelStExample ⟨0⟩ = cancelStExample ∧
    ethosu_rpmsg_network_info_rsp allKindsTblExample 2 netInfoStExample netInfoRspExample =
      netInfoStExample := by
  refine ⟨?_, ?_, ?_, ?_⟩
  · exact (ethosu_rsp_handlers_idempotent allKindsTblExample 0).1 ⟨0, true⟩ ⟨0, 1, 0⟩ rfl
  · exact (ethosu_rsp_handlers_idempotent allKindsTblExample 1).2.2.1 capStExample capRspExample rfl
  · exact (ethosu_rsp_handlers_idempotent allKindsTblExample 3).2.2.2.2.1 cancelStExample ⟨0⟩ rfl
  · exact (ethosu_rsp_handlers_idempotent allKindsTblExample 2).2.2.2.2.2.2.1 netInfoStExample
      netInfoRspExample rfl

/-- Claim C6 (refuted on the copy-failure clause — the code returns the
positive count of uncopied bytes instead of -EFAULT): evaluated at a
USER_BUFFER request with a valid pointer and length 64, successful
allocations, and a copy_from_user that leaves all 64 bytes uncopied, the
function returns 64 — a positive value indistinguishable from a file
descriptor — rather than the claimed -EFAULT (Faulted). -/
theorem ethosu_network_create_copy_fail_returns_positive :
    (ethosu_rpmsg_network_create netCreateUapiExample netCreateEnvExample).1 = 64 ∧
    (64 : Int) ≠ -EFAULT ∧
    (0 : Int) < 64 := by
  refine ⟨rfl, by decide, by decide⟩
